import Mathlib

/-!
# Verification of the heph per-worker actor runtime core

A shallow embedding, in Lean 4, of the per-worker execution engine of the
heph actor runtime: the priority-weighted scheduler comparator, the
actor-process step/restart state machine, the restart-limiter supervisor,
the send-error surface, the poll-timeout selection and termination check of
the worker loop, the PID slab allocator, the `Deadline`/`Timer` futures and
initiator installation.

Conventions of the embedding:
* Rust `Duration` and `Instant` values are nanosecond counts (`Nat`).
* Rust `Poll`/`Future` state machines become explicit step functions taking
  the current wall-clock time / measured step duration as input, because
  real time is external to the program.
* Components of this repository whose module files are not present in the
  source tree (the `process` module of the scheduler, the PID slab allocator, the
  mailbox and actor-reference modules) are modelled from the specification,
  constrained by their unit tests and callers that are present; each such
  definitions state so in their doc comments.
-/

namespace Heph

/-! ## Ordering helper

The Rust `Ord::cmp` on integers, written out so proofs can unfold it. -/

/-- Three-way integer comparison, as Rust `Ord::cmp` does it on integers. -/
def natCmp (a b : Nat) : Ordering :=
  if a < b then .lt else if a = b then .eq else .gt

/-! ## Priority and the scheduler comparator (spec-modelled)

The `scheduler::process` module itself is not in the source tree; only its
unit tests (`src/src/scheduler/process/tests.rs`) are. The definitions below
are modelled from the specification (§3 Data Model, §4.2 Scheduler) and are
checked against every assertion of those unit tests further down. -/

/-- Modelled from the spec: `Priority` of the missing `scheduler::process`
module, one of Low, Normal, High (spec §3); the unit tests `priority` and
`priority_duration_multiplication` constrain its order and weights. -/
inductive Priority
  | LOW
  | NORMAL
  | HIGH
deriving DecidableEq, Repr

/-- Rank used for the raw `Ord` on `Priority`: the tests require
`HIGH > NORMAL > LOW`. -/
def Priority.rank : Priority → Nat
  | .LOW => 0
  | .NORMAL => 1
  | .HIGH => 2

/-- Modelled from the spec: the multiplicative weight of a priority, using
the reference values of the spec (§4.2: "High 4, Normal 16, Low 64"); higher
priority means smaller weight. -/
def Priority.weight : Priority → Nat
  | .HIGH => 4
  | .NORMAL => 16
  | .LOW => 64

/-- The product of a duration and a priority (the `Mul<Priority> for Duration` impl exercised by
the `priority_duration_multiplication` unit test): the duration in
nanoseconds multiplied by the weight of the priority. -/
def durationMulPriority (d : Nat) (p : Priority) : Nat :=
  d * p.weight

/-- The uniform view the scheduler has of a process, as exposed by the `Process`
trait of the missing `scheduler::process` module and its `TestProcess`
mirror in the unit tests: a PID, a priority and an accumulated runtime
(nanoseconds). -/
structure ProcessData where
  id : Nat
  priority : Priority
  runtime : Nat
deriving DecidableEq, Repr

/-- The fair runtime of a process: accumulated runtime times the weight of
its priority, per spec §3 (`fair_runtime = elapsed_runtime × weight(priority)`). -/
def ProcessData.fairRuntime (p : ProcessData) : Nat :=
  durationMulPriority p.runtime p.priority

/-- Modelled from the spec: the comparator (`Ord::cmp`) of the missing
`scheduler::process` module, checked against the `process_ordering` unit
test. The ready set is max-ordered (spec §3), so `.gt` means "ranked above,
selected first". A smaller fair runtime ranks above (hence the reversed
first comparison); ties are broken by higher raw priority, then by lower
PID (again reversed). -/
def ProcessData.cmp (a b : ProcessData) : Ordering :=
  (natCmp b.fairRuntime a.fairRuntime).then
    ((natCmp a.priority.rank b.priority.rank).then
      (natCmp b.id a.id))

/-- Process `a` is selected (dequeued from the max-ordered ready set) before `b`. -/
def ProcessData.selectedFirst (a b : ProcessData) : Prop :=
  ProcessData.cmp a b = .gt

instance (a b : ProcessData) : Decidable (ProcessData.selectedFirst a b) := by
  unfold ProcessData.selectedFirst
  infer_instance

/-! ## Poll-timeout selection (`ActorSystem::schedule_processes`) -/

/-- The poll-timeout selection of `ActorSystem::schedule_processes`
(src/src/system/mod.rs:106-110): timeout `some 0` (non-blocking) when the
system has no initiators or the scheduler has a ready process, `none`
(unbounded, blocking) otherwise. -/
def schedulePollTimeout (hasInitiators processReady : Bool) : Option Nat :=
  if !hasInitiators || processReady then some 0 else none

/-! ## Supervision (`src/src/supervisor.rs`) -/

/-- The `SupervisorStrategy` enum from src/src/supervisor.rs: restart the actor with
a fresh argument, or stop it. -/
inductive SupervisorStrategy (Arg : Type)
  | Restart (arg : Arg)
  | Stop
deriving DecidableEq, Repr

/-- The state of the supervisor type generated by the `restart_supervisor!`
macro (src/src/supervisor.rs:440-449): restarts left, time of the last
restart (`Instant` as nanoseconds), and the stored actor arguments. -/
structure RestartSupervisor (Args : Type) where
  restarts_left : Nat
  last_restart : Option Nat
  args : Args
deriving DecidableEq, Repr

/-- The `new` constructor generated by the macro
(src/src/supervisor.rs:558-570 and variants): full restart budget, no
restart recorded yet. -/
def RestartSupervisor.new (maxRestarts : Nat) (args : Args) :
    RestartSupervisor Args :=
  { restarts_left := maxRestarts, last_restart := none, args := args }

/-- The `decide_impl` branch of `__heph_restart_supervisor_impl`
(src/src/supervisor.rs:516-553), shared by `Supervisor::decide` and
`SyncSupervisor::decide` of the generated type: record `now` as the last
restart; if the previous restart was more than `maxDuration` ago, reset the
counter to `maxRestarts`; then if the counter is positive decrement it and
restart with a clone of the stored arguments, otherwise stop. The Rust
`Instant` subtraction `now - last_restart` never sees `last_restart` in the
future, matching truncated `Nat` subtraction. -/
def RestartSupervisor.decide (maxRestarts maxDuration : Nat)
    (s : RestartSupervisor Args) (now : Nat) :
    RestartSupervisor Args × SupervisorStrategy Args :=
  let last := s.last_restart
  let s1 : RestartSupervisor Args := { s with last_restart := some now }
  let s2 : RestartSupervisor Args :=
    match last with
    | some lastRestart =>
        if maxDuration < now - lastRestart
        then { s1 with restarts_left := maxRestarts }
        else s1
    | none => s1
  if 1 ≤ s2.restarts_left then
    ({ s2 with restarts_left := s2.restarts_left - 1 }, .Restart s2.args)
  else
    (s2, .Stop)

/-- The method `Supervisor::decide_on_restart_error` of the generated type
(src/src/supervisor.rs:478-495): record `now` as the last restart, then if
the counter is positive decrement it and restart with a clone of the stored
arguments, otherwise stop. Unlike `decide`, it performs no
`MAX_DURATION`-based reset of the counter (and so needs neither
`maxRestarts` nor `maxDuration`). -/
def RestartSupervisor.decideOnRestartError (s : RestartSupervisor Args)
    (now : Nat) : RestartSupervisor Args × SupervisorStrategy Args :=
  let s1 : RestartSupervisor Args := { s with last_restart := some now }
  if 1 ≤ s1.restarts_left then
    ({ s1 with restarts_left := s1.restarts_left - 1 }, .Restart s1.args)
  else
    (s1, .Stop)

/-! ## Send errors (`src/src/system/error.rs`) -/

/-- The `SendErrorReason` enum from src/src/system/error.rs:226-231: the only two
reasons a send can fail are that the destination actor is shut down or that
the whole actor system is shutting down. -/
inductive SendErrorReason
  | ActorShutdown
  | SystemShutdown
deriving DecidableEq, Repr

/-- The `SendError` struct from src/src/system/error.rs:199-204: a failed send carries
the unsent message back to the sender together with the reason. -/
structure SendError (M : Type) where
  message : M
  reason : SendErrorReason
deriving DecidableEq, Repr

/-- Modelled from the spec: the send path of `LocalActorRef` backed by
`MailBox` (both modules are missing from the source tree; their caller
`ActorSystemInner::add_actor_setup`, src/src/system/mod.rs:284-292, shows
the reference holds a downgraded weak reference to the mailbox and that
`MailBox::new` takes no capacity). The mailbox is the message queue when
the actor is alive and `none` once the process of the actor is dropped; sending
appends to the unbounded queue, and a send to a dropped actor fails with
`ActorShutdown`, returning the message. -/
def trySend (mailbox : Option (List M)) (m : M) :
    Except (SendError M) (List M) :=
  match mailbox with
  | some q => .ok (q ++ [m])
  | none => .error { message := m, reason := .ActorShutdown }

/-! ## The actor process (spec-modelled)

`ActorProcess` lives in the missing `scheduler::process` module; the model
below follows the specification (§4.3 Actor Process, §4.6 Supervision
Protocol) and is checked against the `actor_process`,
`erroneous_actor_process` and `restarting_erroneous_actor_process` unit
tests that are in the source tree. -/

/-- The `ProcessResult` enum of the missing `scheduler::process` module: the outcome
the scheduler observes from one `run` call. -/
inductive ProcessResult
  | Pending
  | Complete
deriving DecidableEq, Repr

/-- The outcome of polling the embedded user computation once: suspend,
finish normally, or finish with an error. -/
inductive PollOutcome (E : Type)
  | Pending
  | Complete
  | Failed (e : E)
deriving DecidableEq, Repr

/-- Modelled from the spec: a suspendable user computation, abstracted as
one cooperative step that consumes the inbox and returns the outcome
together with the inbox it leaves behind (messages it dequeued are gone
from it). -/
structure Computation (M E : Type) where
  step : List M → PollOutcome E × List M

/-- Modelled from the spec: `ActorProcess` of the missing
`scheduler::process` module — PID, priority, accumulated runtime
(nanoseconds), the supervisor, the `NewActor` factory used for restarts,
the embedded computation and the inbox it owns (the unit tests construct it
with exactly these seven arguments). -/
structure ActorProcess (M E Arg : Type) where
  pid : Nat
  priority : Priority
  runtime : Nat
  supervisor : E → SupervisorStrategy Arg
  new_actor : Arg → Computation M E
  computation : Computation M E
  inbox : List M

/-- The constructor `ActorProcess::new`: the accumulated runtime starts at zero (asserted
by every process unit test). -/
def ActorProcess.new (pid : Nat) (priority : Priority)
    (supervisor : E → SupervisorStrategy Arg)
    (newActor : Arg → Computation M E) (computation : Computation M E)
    (inbox : List M) : ActorProcess M E Arg :=
  { pid := pid, priority := priority, runtime := 0,
    supervisor := supervisor, new_actor := newActor,
    computation := computation, inbox := inbox }

/-- Modelled from the spec: one `run` call of `ActorProcess`. `dt` is the
measured wall-clock duration of this step (external input to the model);
it is added to the accumulated runtime on every path. The computation is
polled once against the inbox; `Pending` and `Complete` are passed through
to the scheduler; on `Failed e` the supervisor decides: `Stop` drops the
process (`Complete` to the scheduler), `Restart arg` rebuilds the
computation from the factory with `arg`, reusing the inbox exactly as the
failed step left it, and reports `Pending` so the scheduler keeps the
process. -/
def ActorProcess.run (p : ActorProcess M E Arg) (dt : Nat) :
    ActorProcess M E Arg × ProcessResult :=
  let out := p.computation.step p.inbox
  let p1 : ActorProcess M E Arg :=
    { p with inbox := out.2, runtime := p.runtime + dt }
  match out.1 with
  | .Pending => (p1, .Pending)
  | .Complete => (p1, .Complete)
  | .Failed e =>
      match p.supervisor e with
      | .Stop => (p1, .Complete)
      | .Restart arg => ({ p1 with computation := p.new_actor arg }, .Pending)

/-- Run a process through a sequence of steps with the given measured
durations, keeping only the process state. -/
def ActorProcess.runMany (p : ActorProcess M E Arg) (dts : List Nat) :
    ActorProcess M E Arg :=
  dts.foldl (fun q dt => (q.run dt).1) p

/-- The computation of the `error_actor` unit test with `fail = true`: it
returns an error without touching the inbox. -/
def errorActorComp : Computation Unit Unit :=
  { step := fun inbox => (.Failed (), inbox) }

/-- The computation of the `error_actor` unit test with `fail = false` (and
of `ok_actor`): it awaits a message — `Pending` on an empty inbox — and
completes after dequeueing one. -/
def okActorComp : Computation Unit Unit :=
  { step := fun inbox =>
      match inbox with
      | [] => (.Pending, [])
      | _ :: rest => (.Complete, rest) }

/-- The `error_actor` factory of the unit tests: the argument chooses the
failing or the well-behaved computation. -/
def errorNewActor : Bool → Computation Unit Unit :=
  fun fail => if fail then errorActorComp else okActorComp

/-! ## Timers (`src/src/timer.rs`) -/

/-- The `DeadlinePassed` marker from src/src/timer.rs:31. -/
inductive DeadlinePassed
  | passed
deriving DecidableEq, Repr

/-- The Rust `Poll` type: a future is ready with a value or pending. -/
inductive Poll (α : Type)
  | Ready (a : α)
  | Pending
deriving DecidableEq, Repr

/-- An inner future for the `Deadline` combinator: polling it transforms
its private state `σ` and yields a `Poll`. -/
structure Fut (σ α : Type) where
  poll : σ → σ × Poll α

/-- The `Timer` future from src/src/timer.rs:76-78: a stand-alone future holding its
deadline (`Instant` as nanoseconds). -/
structure Timer where
  deadline : Nat
deriving DecidableEq, Repr

/-- The `Future for Timer` impl (src/src/timer.rs:103-113): ready with
`DeadlinePassed` once `deadline <= now`, pending before that. `now` is the
wall-clock instant at which the poll happens. -/
def Timer.pollAt (t : Timer) (now : Nat) : Poll DeadlinePassed :=
  if t.deadline ≤ now then .Ready .passed else .Pending

/-- The `Deadline` struct from src/src/timer.rs:161-164: a deadline (`Instant` as
nanoseconds) wrapping an inner future, here carried with the inner
current state of the inner future. -/
structure Deadline (σ α : Type) where
  deadline : Nat
  state : σ
  fut : Fut σ α

/-- The `Future for Deadline` impl (src/src/timer.rs:190-203): if the deadline has
passed (`deadline <= now`) return `Err(DeadlinePassed)` without polling the
inner future (its state is untouched); otherwise poll the inner future and
wrap its ready output in `Ok`. -/
def Deadline.pollAt (d : Deadline σ α) (now : Nat) :
    Deadline σ α × Poll (Except DeadlinePassed α) :=
  if d.deadline ≤ now then
    (d, .Ready (.error .passed))
  else
    let out := d.fut.poll d.state
    ({ d with state := out.1 },
      match out.2 with
      | .Ready v => .Ready (.ok v)
      | .Pending => .Pending)

/-! ## The scheduler population and the worker loop

The worker loop is `ActorSystem::run` (src/src/system/mod.rs:91-98); the
scheduler it drives is missing from the source tree and is modelled from
the specification (§4.2). -/

/-- Modelled from the spec: the per-worker scheduler population of the
missing `Scheduler` type — the pids currently in the ready set and the pids
of processes that are present but inactive (not ready). -/
structure Scheduler where
  ready : List Nat
  inactive : List Nat
deriving DecidableEq, Repr

/-- The method `Scheduler::process_ready`, as called by
`ActorSystem::schedule_processes`: whether any process is ready. -/
def Scheduler.processReady (s : Scheduler) : Bool :=
  !s.ready.isEmpty

/-- Modelled from the spec: `Scheduler::schedule` (`mark_ready`, spec
§4.2): an inactive process moves to the ready set; a pid already ready is
not duplicated and a pid of an already-dropped process is silently
discarded (both leave the scheduler unchanged). -/
def Scheduler.schedule (s : Scheduler) (pid : Nat) : Scheduler :=
  if s.inactive.contains pid then
    { ready := pid :: s.ready, inactive := s.inactive.erase pid }
  else
    s

/-- Modelled from the spec: `Scheduler::run_process` — remove and step the
best ready process, or do nothing when none is ready (`run_process` in
the source returns whether a process ran; the model also exposes which
pid). Selection order among ready processes follows the comparator; for the
worker-loop claims only readiness matters, so the model steps the list
head. What state the stepped process enters next depends on its outcome; the loop
claims do not depend on it, so the model parks it as inactive. -/
def Scheduler.runProcess (s : Scheduler) : Option (Nat × Scheduler) :=
  match s.ready with
  | [] => none
  | pid :: rest => some (pid, { ready := rest, inactive := pid :: s.inactive })

/-- The observable outcome of one iteration of the worker loop: the loop
either returns `Ok` (graceful stop) or continues, having stepped the given
process if one was ready. -/
inductive LoopStep
  | terminated
  | continues (stepped : Option Nat) (s : Scheduler)
deriving DecidableEq, Repr

/-- One iteration of the worker loop `ActorSystem::run`
(src/src/system/mod.rs:91-98, with `schedule_processes` at 105-127):
`events` are the pids delivered by the OS poll of this iteration and the waker
channel (an input of the model); they are marked ready, then `run_process`
steps the best ready process; the loop returns `Ok` exactly when no process
ran and the poll returned no events. The `has_initiators` flag only affects
the poll timeout (`schedulePollTimeout`), not this termination check. -/
def runIteration (s : Scheduler) (events : List Nat) : LoopStep :=
  let s1 := events.foldl Scheduler.schedule s
  match s1.runProcess with
  | some (pid, s2) => .continues (some pid) s2
  | none => if events.isEmpty then .terminated else .continues none s1

/-! ## PID allocation (spec-modelled) -/

/-- Modelled from the spec: the per-worker slab PID allocator of the
missing scheduler module ("PIDs are allocated by a per-worker slab
allocator: newly added processes get the lowest free index", spec §4.1).
The slab is represented by its occupancy list — `true` at index `i` means
pid `i` is held by a live process — and `lowestFree` is the index a newly
added process receives. -/
def lowestFree : List Bool → Nat
  | [] => 0
  | false :: _ => 0
  | true :: rest => lowestFree rest + 1

/-- Occupy the lowest free slot of the slab (the other half of
`add_process`). -/
def slabInsert : List Bool → List Bool
  | [] => [true]
  | false :: rest => true :: rest
  | true :: rest => true :: slabInsert rest

/-- Modelled from the spec: the PID allocation of `add_process` — the new
process gets the lowest free index and that slot becomes occupied. -/
def slabAlloc (s : List Bool) : Nat × List Bool :=
  (lowestFree s, slabInsert s)

/-- Dropping the process with pid `i` frees its slab slot, making the pid
available for reuse. -/
def slabRemove (s : List Bool) (i : Nat) : List Bool :=
  s.set i false

/-! ## Initiator installation (`ActorSystemInner::add_initiator`) -/

/-- A scheduler entry as created by `process_entry.add(process, priority)`:
the pid of the new process paired with the priority it was installed under. -/
structure SchedEntry where
  pid : Nat
  priority : Priority
deriving DecidableEq, Repr

/-- The method `ActorSystemInner::add_initiator` (src/src/system/mod.rs:304-329),
generic over the `InitiatorOptions` type `Opts` because the source ignores
its `_options` parameter entirely: allocate a pid, initialise the initiator
(`initOk` is the success of `Initiator::init`, an external input); on
failure return the error without adding a process; on success install the
initiator process with `Priority::LOW`, whatever the options say. -/
def addInitiator (opts : Opts) (sched : List SchedEntry) (pid : Nat)
    (initOk : Bool) : Except Unit (List SchedEntry) :=
  if initOk then
    .ok (sched ++ [{ pid := pid, priority := .LOW }])
  else
    .error ()

/-- The method `InitiatorProcess::run` (src/src/process/initiator.rs:36-43): poll the
initiator; an `Err` from `poll` completes (drops) the process, an `Ok`
leaves it pending. `pollOk` stands for the `io::Result` of
`Initiator::poll`. -/
def initiatorProcessRun (pollOk : Bool) : ProcessResult :=
  if pollOk then .Pending else .Complete

end Heph

namespace Heph

theorem natCmp_eq_gt_of_lt {a b : Nat} (h : b < a) : natCmp a b = .gt := by
  unfold natCmp
  have h1 : ¬ a < b := by omega
  have h2 : ¬ a = b := by omega
  simp [h1, h2]

theorem natCmp_eq_eq_of_eq {a b : Nat} (h : a = b) : natCmp a b = .eq := by
  unfold natCmp
  simp [h]

/-! Fidelity checks against the `process_ordering`, `priority` and
`priority_duration_multiplication` unit tests of the source. -/

example : ProcessData.cmp ⟨0, .NORMAL, 10⟩ ⟨0, .NORMAL, 10⟩ = .eq := by decide
example : ProcessData.cmp ⟨0, .NORMAL, 10⟩ ⟨0, .NORMAL, 11⟩ = .gt := by decide
example : ProcessData.cmp ⟨0, .NORMAL, 10⟩ ⟨0, .HIGH, 10⟩ = .lt := by decide
example : ProcessData.cmp ⟨0, .NORMAL, 11⟩ ⟨0, .NORMAL, 10⟩ = .lt := by decide
example : ProcessData.cmp ⟨0, .NORMAL, 11⟩ ⟨0, .HIGH, 10⟩ = .lt := by decide
example : ProcessData.cmp ⟨0, .HIGH, 10⟩ ⟨0, .NORMAL, 10⟩ = .gt := by decide
example : ProcessData.cmp ⟨0, .HIGH, 10⟩ ⟨0, .NORMAL, 11⟩ = .gt := by decide
example : ProcessData.cmp ⟨0, .LOW, 0⟩ ⟨0, .NORMAL, 0⟩ = .lt := by decide
example : ProcessData.cmp ⟨0, .LOW, 0⟩ ⟨0, .HIGH, 0⟩ = .lt := by decide
example : ProcessData.cmp ⟨0, .NORMAL, 0⟩ ⟨0, .HIGH, 0⟩ = .lt := by decide
example : Priority.rank .HIGH > Priority.rank .NORMAL := by decide
example : Priority.rank .NORMAL > Priority.rank .LOW := by decide
example : durationMulPriority 1000000 .HIGH < durationMulPriority 1000000 .NORMAL := by decide
example : durationMulPriority 1000000 .NORMAL < durationMulPriority 1000000 .LOW := by decide

/-! Fidelity checks against the `initiator_process` unit test: an `Ok` poll
leaves the process pending, an `Err` poll completes (removes) it. -/

example : initiatorProcessRun true = .Pending := by decide
example : initiatorProcessRun false = .Complete := by decide


/-- C1: For any two Ready processes A and B the comparator of the scheduler
selects the one with smaller fair runtime, where
`fair(p) = runtime(p) × weight(priority(p))` and
`weight(High) < weight(Normal) < weight(Low)`; on equal fair runtimes the
higher raw priority is selected first, and on equal priorities the lower
PID is selected first ("selected first" is `Ordering.gt` under the
max-ordered ready set). -/
theorem scheduler_comparator_selects_fairly (a b : ProcessData) :
    (Priority.weight .HIGH < Priority.weight .NORMAL
      ∧ Priority.weight .NORMAL < Priority.weight .LOW)
    ∧ (a.fairRuntime < b.fairRuntime → a.selectedFirst b)
    ∧ (a.fairRuntime = b.fairRuntime → b.priority.rank < a.priority.rank →
        a.selectedFirst b)
    ∧ (a.fairRuntime = b.fairRuntime → a.priority = b.priority → a.id < b.id →
        a.selectedFirst b) := by
  refine ⟨⟨by decide, by decide⟩, ?_, ?_, ?_⟩
  · intro hlt
    unfold ProcessData.selectedFirst ProcessData.cmp
    rw [natCmp_eq_gt_of_lt hlt]
    rfl
  · intro heq hpr
    unfold ProcessData.selectedFirst ProcessData.cmp
    rw [natCmp_eq_eq_of_eq heq.symm, natCmp_eq_gt_of_lt hpr]
    rfl
  · intro heq hpeq hid
    unfold ProcessData.selectedFirst ProcessData.cmp
    rw [natCmp_eq_eq_of_eq heq.symm, natCmp_eq_eq_of_eq (by rw [hpeq]),
      natCmp_eq_gt_of_lt hid]
    rfl

/-- Witness for C1: the comparator theorem applied at the concrete processes
of the `process_ordering` unit test (and a PID tie-break instance). -/
theorem scheduler_comparator_selects_fairly_witness :
    ProcessData.selectedFirst ⟨0, .NORMAL, 10⟩ ⟨0, .NORMAL, 11⟩
    ∧ ProcessData.selectedFirst ⟨0, .HIGH, 0⟩ ⟨0, .NORMAL, 0⟩
    ∧ ProcessData.selectedFirst ⟨3, .NORMAL, 10⟩ ⟨7, .NORMAL, 10⟩ :=
  ⟨(scheduler_comparator_selects_fairly ⟨0, .NORMAL, 10⟩ ⟨0, .NORMAL, 11⟩).2.1
      (by decide),
   (scheduler_comparator_selects_fairly ⟨0, .HIGH, 0⟩ ⟨0, .NORMAL, 0⟩).2.2.1
      (by decide) (by decide),
   (scheduler_comparator_selects_fairly ⟨3, .NORMAL, 10⟩ ⟨7, .NORMAL, 10⟩).2.2.2
      (by decide) (by decide) (by decide)⟩

/-- C6: in every worker-loop iteration the OS poll is non-blocking (timeout
zero) iff the scheduler has a ready process or the system has no
initiators; otherwise the poll timeout is unbounded (`none`). -/
theorem poll_timeout_selection (hasInitiators processReady : Bool) :
    (schedulePollTimeout hasInitiators processReady = some 0
      ↔ (processReady = true ∨ hasInitiators = false))
    ∧ (schedulePollTimeout hasInitiators processReady = none
      ↔ (hasInitiators = true ∧ processReady = false)) := by
  cases hasInitiators <;> cases processReady <;>
    simp [schedulePollTimeout]

/-- C2 counterexample: `decide_on_restart_error` does not apply the same
logic as `decide`. With `MAX_RESTARTS = 5`, `MAX_DURATION = 5`, a counter at
0 and a last restart 10ns ago (more than `MAX_DURATION`), `decide` resets
the counter and restarts, but `decide_on_restart_error` stops: the
`MAX_DURATION` reset is missing from it. -/
theorem decide_on_restart_error_no_reset_cx :
    (RestartSupervisor.decideOnRestartError
        ({ restarts_left := 0, last_restart := some 0, args := () }
          : RestartSupervisor Unit) 10).2
      = .Stop
    ∧ (RestartSupervisor.decide 5 5
        ({ restarts_left := 0, last_restart := some 0, args := () }
          : RestartSupervisor Unit) 10).2
      = .Restart () := by
  constructor
  · rfl
  · rfl

/-- C2 (amended): for every call, `decide_on_restart_error` records `now` as
the last restart and keeps the stored arguments; if the counter is positive
it is decremented and `Restart` with a clone of the stored arguments is
returned, otherwise `Stop` is returned; the counter is never reset to
`MAX_RESTARTS`, regardless of how much time elapsed since the last recorded
restart. -/
theorem decide_on_restart_error_behaviour (s : RestartSupervisor Args)
    (now : Nat) :
    ((s.decideOnRestartError now).1.last_restart = some now)
    ∧ ((s.decideOnRestartError now).1.args = s.args)
    ∧ (1 ≤ s.restarts_left →
        (s.decideOnRestartError now).2 = .Restart s.args
        ∧ (s.decideOnRestartError now).1.restarts_left = s.restarts_left - 1)
    ∧ (s.restarts_left = 0 →
        (s.decideOnRestartError now).2 = .Stop
        ∧ (s.decideOnRestartError now).1.restarts_left = 0) := by
  unfold RestartSupervisor.decideOnRestartError
  by_cases h : 1 ≤ s.restarts_left
  · simp [h]
    omega
  · have h0 : s.restarts_left = 0 := by omega
    simp [h, h0]

/-- Witness for C2: the amended behaviour at a counter of 3 (restart,
decrement to 2) and at a counter of 0 (stop), both at time 7. -/
theorem decide_on_restart_error_behaviour_witness :
    ((RestartSupervisor.decideOnRestartError
        ({ restarts_left := 3, last_restart := none, args := () }
          : RestartSupervisor Unit) 7).2
      = .Restart ())
    ∧ ((RestartSupervisor.decideOnRestartError
        ({ restarts_left := 0, last_restart := none, args := () }
          : RestartSupervisor Unit) 7).2
      = .Stop) :=
  ⟨((decide_on_restart_error_behaviour
      { restarts_left := 3, last_restart := none, args := () } 7).2.2.1
      (by decide)).1,
   ((decide_on_restart_error_behaviour
      { restarts_left := 0, last_restart := none, args := () } 7).2.2.2
      (by decide)).1⟩

/-- C3 counterexample: sending into an inbox that already holds a message
(a queue at the claimed capacity of 1) succeeds by appending — there is no
`Full` backpressure failure, the queue is unbounded — and the failure
reason `SystemShutdown` is a send failure that is neither a full-queue
failure nor an actor-gone (`ActorShutdown`) failure. -/
theorem try_send_no_full_error_cx :
    trySend (some [0]) 1 = .ok [0, 1]
    ∧ SendErrorReason.SystemShutdown ≠ SendErrorReason.ActorShutdown := by
  constructor
  · rfl
  · decide

/-- C3 (amended): `trySend` either succeeds, appending the message to the
unbounded queue, or fails with reason `ActorShutdown` (actor gone),
returning the message to the sender inside the `SendError`; the only send
failure reasons are `ActorShutdown` and `SystemShutdown` (there is no
`Full`/backpressure failure), and a send never silently drops a message: on
success the message is in the queue, on failure it is returned. -/
theorem try_send_never_drops (mailbox : Option (List M)) (m : M)
    (r : SendErrorReason) :
    (match trySend mailbox m with
      | .ok q => m ∈ q
      | .error e => e.message = m ∧ e.reason = .ActorShutdown)
    ∧ (r = .ActorShutdown ∨ r = .SystemShutdown) := by
  constructor
  · cases mailbox <;> simp [trySend]
  · cases r
    · exact Or.inl rfl
    · exact Or.inr rfl

/-- Every `run` call adds its measured duration to the accumulated runtime,
on every path through the step (pending, complete, failed-stop,
failed-restart). -/
theorem ActorProcess.run_fst_runtime (p : ActorProcess M E Arg) (dt : Nat) :
    (p.run dt).1.runtime = p.runtime + dt := by
  unfold ActorProcess.run
  cases h : (p.computation.step p.inbox).1 with
  | Pending => simp [h]
  | Complete => simp [h]
  | Failed e =>
      cases hs : p.supervisor e <;> simp [h, hs]

/-- Running a process through a sequence of steps adds the sum of the
measured durations to its runtime. -/
theorem ActorProcess.runMany_runtime (dts : List Nat)
    (p : ActorProcess M E Arg) :
    (p.runMany dts).runtime = p.runtime + dts.sum := by
  induction dts generalizing p with
  | nil => simp [ActorProcess.runMany]
  | cons d rest ih =>
      have : ActorProcess.runMany p (d :: rest)
          = ActorProcess.runMany ((p.run d).1) rest := by
        simp [ActorProcess.runMany]
      rw [this, ih, ActorProcess.run_fst_runtime, List.sum_cons]
      omega

/-- C4: the accumulated runtime of a process starts at zero, every `run`
call increments it by the measured wall-clock duration of that single step,
hence it is monotonically non-decreasing and after any sequence of steps it
equals the sum of the measured step durations. -/
theorem runtime_accumulates (pid : Nat) (pr : Priority)
    (sup : E → SupervisorStrategy Arg) (na : Arg → Computation M E)
    (c : Computation M E) (inbox : List M)
    (p : ActorProcess M E Arg) (dt : Nat) (dts : List Nat) :
    (ActorProcess.new pid pr sup na c inbox).runtime = 0
    ∧ (p.run dt).1.runtime = p.runtime + dt
    ∧ p.runtime ≤ (p.run dt).1.runtime
    ∧ ((ActorProcess.new pid pr sup na c inbox).runMany dts).runtime
        = dts.sum := by
  refine ⟨rfl, ActorProcess.run_fst_runtime p dt, ?_, ?_⟩
  · rw [ActorProcess.run_fst_runtime]
    omega
  · rw [ActorProcess.runMany_runtime]
    simp [ActorProcess.new]

/-- C5: when the computation fails with `e` and the supervisor decides
`Restart arg`, the `run` call rebuilds the computation from the factory
with `arg`, keeps the inbox exactly as the failed computation left it
(undelivered messages remain; anything the failed computation dequeued is
gone), keeps the process alive with the rebuilt computation in place of
dropping it, and reports `Pending` — not `Complete` — to the scheduler. -/
theorem restart_rebuilds_and_reuses_inbox (p : ActorProcess M E Arg)
    (dt : Nat) (e : E) (arg : Arg) (inboxLeft : List M)
    (hstep : p.computation.step p.inbox = (.Failed e, inboxLeft))
    (hsup : p.supervisor e = .Restart arg) :
    p.run dt
      = ({ p with
           computation := p.new_actor arg
           inbox := inboxLeft
           runtime := p.runtime + dt }, .Pending) := by
  unfold ActorProcess.run
  simp [hstep, hsup]

/-- Witness for C5: the failing actor of the
`restarting_erroneous_actor_process` unit test, supervised by
`Restart false`, is rebuilt into the well-behaved computation on the same
(empty) inbox and the step reports `Pending`. -/
theorem restart_rebuilds_and_reuses_inbox_witness :
    ActorProcess.run
      { pid := 0, priority := .NORMAL, runtime := 0,
        supervisor := fun _ => SupervisorStrategy.Restart false,
        new_actor := errorNewActor, computation := errorActorComp,
        inbox := ([] : List Unit) } 3
    = ({ pid := 0, priority := .NORMAL, runtime := 3,
         supervisor := fun _ => SupervisorStrategy.Restart false,
         new_actor := errorNewActor, computation := errorNewActor false,
         inbox := [] }, .Pending) :=
  restart_rebuilds_and_reuses_inbox
    (p := { pid := 0, priority := .NORMAL, runtime := 0,
            supervisor := fun _ => SupervisorStrategy.Restart false,
            new_actor := errorNewActor, computation := errorActorComp,
            inbox := ([] : List Unit) })
    3 () false [] rfl rfl

/-- C9: a poll of the `Deadline` combinator at or after the deadline
instant returns `Err(DeadlinePassed)` without polling the inner future (its
state is untouched); a poll strictly before the deadline returns the inner
output of the inner future wrapped in `Ok` when that future is ready and
`Pending` otherwise — the composition yields whichever of the deadline and
the inner computation resolves first. -/
theorem deadline_poll_race (d : Deadline σ α) (now : Nat) :
    (d.deadline ≤ now →
        (d.pollAt now).2 = .Ready (.error .passed)
        ∧ (d.pollAt now).1.state = d.state)
    ∧ (now < d.deadline → ∀ s v, d.fut.poll d.state = (s, .Ready v) →
        (d.pollAt now).2 = .Ready (.ok v))
    ∧ (now < d.deadline → ∀ s, d.fut.poll d.state = (s, .Pending) →
        (d.pollAt now).2 = .Pending) := by
  refine ⟨?_, ?_, ?_⟩
  · intro h
    simp [Deadline.pollAt, h]
  · intro h s v hpoll
    have hn : ¬ d.deadline ≤ now := by omega
    simp [Deadline.pollAt, hn, hpoll]
  · intro h s hpoll
    have hn : ¬ d.deadline ≤ now := by omega
    simp [Deadline.pollAt, hn, hpoll]

/-- Witness for C9: a deadline of 5ns polled at 5ns wins over a
never-ready inner future; polled at 4ns it passes through a ready inner
value 7 of a ready inner future in `Ok`, and stays `Pending` over a pending inner
future. -/
theorem deadline_poll_race_witness :
    ((Deadline.pollAt
        { deadline := 5, state := (0 : Nat),
          fut := { poll := fun s => (s + 1, Poll.Pending (α := Nat)) } } 5).2
      = .Ready (.error .passed))
    ∧ ((Deadline.pollAt
        { deadline := 5, state := (0 : Nat),
          fut := { poll := fun s => (s, Poll.Ready (7 : Nat)) } } 4).2
      = .Ready (.ok 7))
    ∧ ((Deadline.pollAt
        { deadline := 5, state := (0 : Nat),
          fut := { poll := fun s => (s + 1, Poll.Pending (α := Nat)) } } 4).2
      = .Pending) :=
  ⟨((deadline_poll_race
      { deadline := 5, state := (0 : Nat),
        fut := { poll := fun s => (s + 1, Poll.Pending (α := Nat)) } } 5).1
      (by decide)).1,
   (deadline_poll_race
      { deadline := 5, state := (0 : Nat),
        fut := { poll := fun s => (s, Poll.Ready (7 : Nat)) } } 4).2.1
      (by decide) 0 7 rfl,
   (deadline_poll_race
      { deadline := 5, state := (0 : Nat),
        fut := { poll := fun s => (s + 1, Poll.Pending (α := Nat)) } } 4).2.2
      (by decide) 1 rfl⟩

/-- Marking a pid ready never empties a non-empty ready set. -/
theorem Scheduler.schedule_ready_ne_nil (s : Scheduler) (pid : Nat)
    (h : s.ready ≠ []) : (s.schedule pid).ready ≠ [] := by
  unfold Scheduler.schedule
  split
  · simp
  · exact h

/-- Draining a whole batch of poll/waker events never empties a non-empty
ready set. -/
theorem foldl_schedule_ready_ne_nil (events : List Nat) (s : Scheduler)
    (h : s.ready ≠ []) :
    (events.foldl Scheduler.schedule s).ready ≠ [] := by
  induction events generalizing s with
  | nil => exact h
  | cons e rest ih => exact ih _ (Scheduler.schedule_ready_ne_nil s e h)

/-- C7 counterexample: the termination check is not quiescence. A worker
whose scheduler still holds a process (pid 1, inactive — for instance an
actor waiting for a message nobody will send) terminates as soon as an
poll of an iteration returns no events and no process is ready, even though a
process remains. -/
theorem worker_loop_stops_before_quiescence_cx :
    runIteration { ready := [], inactive := [1] } [] = .terminated
    ∧ ({ ready := [], inactive := [1] } : Scheduler)
        ≠ { ready := [], inactive := [] } := by
  constructor
  · rfl
  · decide

/-- C7 (amended): the worker loop returns `Ok` exactly when the poll of an
iteration produced no events and no process is ready — which can happen while
non-ready processes remain, so not precisely at quiescence; it never
terminates while any process is ready: whenever a process is ready, that
iteration steps some process, and its poll is non-blocking (timeout
zero). -/
theorem worker_loop_liveness (s : Scheduler) (events : List Nat)
    (hasInitiators : Bool) :
    (runIteration s events = .terminated ↔ (events = [] ∧ s.ready = []))
    ∧ (s.ready ≠ [] →
        ∃ pid s2, runIteration s events = .continues (some pid) s2)
    ∧ (s.processReady = true →
        schedulePollTimeout hasInitiators s.processReady = some 0) := by
  refine ⟨?_, ?_, ?_⟩
  · cases events with
    | nil =>
        cases hr : s.ready with
        | nil => simp [runIteration, Scheduler.runProcess, hr]
        | cons p rest => simp [runIteration, Scheduler.runProcess, hr]
    | cons e rest =>
        cases hrp : (List.foldl Scheduler.schedule (s.schedule e) rest).runProcess with
        | none => simp [runIteration, hrp]
        | some x => simp [runIteration, hrp]
  · intro h
    have h2 := foldl_schedule_ready_ne_nil events s h
    unfold runIteration
    cases hrp : (events.foldl Scheduler.schedule s).runProcess with
    | none =>
        exfalso
        unfold Scheduler.runProcess at hrp
        cases hfr : (events.foldl Scheduler.schedule s).ready with
        | nil => exact h2 hfr
        | cons a b =>
            rw [hfr] at hrp
            cases hrp
    | some x =>
        obtain ⟨p, s2⟩ := x
        exact ⟨p, s2, by simp [hrp]⟩
  · intro h
    rw [h]
    simp [schedulePollTimeout]

/-- Witness for C7: a scheduler with ready pid 5 steps a process in its
iteration and polls non-blockingly, even with initiators present. -/
theorem worker_loop_liveness_witness :
    (∃ pid s2, runIteration { ready := [5], inactive := [] } []
        = .continues (some pid) s2)
    ∧ schedulePollTimeout true
        (Scheduler.processReady { ready := [5], inactive := [] }) = some 0 :=
  ⟨(worker_loop_liveness { ready := [5], inactive := [] } [] true).2.1
      (by decide),
   (worker_loop_liveness { ready := [5], inactive := [] } [] true).2.2
      (by decide)⟩

/-- Every index below the lowest free index of the slab is occupied
(density of allocation). -/
theorem lowestFree_below_occupied :
    ∀ (s : List Bool) (j : Nat), j < lowestFree s → s[j]? = some true
  | [], j, h => by simp [lowestFree] at h
  | false :: _, j, h => by simp [lowestFree] at h
  | true :: _, 0, _ => by simp
  | true :: rest, j + 1, h => by
      have hj : j < lowestFree rest := by
        simp [lowestFree] at h
        omega
      simpa using lowestFree_below_occupied rest j hj

/-- The lowest free index of the slab is indeed free: past the end of the
slab or an unoccupied slot. -/
theorem lowestFree_is_free :
    ∀ s : List Bool, s[lowestFree s]? = none ∨ s[lowestFree s]? = some false
  | [] => Or.inl (by simp [lowestFree])
  | false :: _ => Or.inr (by simp [lowestFree])
  | true :: rest => by
      have := lowestFree_is_free rest
      simpa [lowestFree] using this

/-- Freeing slot `i` makes the allocator hand out an index no larger than
`i`: a dropped pid becomes available for reuse. -/
theorem lowestFree_after_remove :
    ∀ (s : List Bool) (i : Nat), i < s.length → lowestFree (s.set i false) ≤ i
  | [], i, h => by simp at h
  | _ :: rest, 0, _ => by simp [List.set, lowestFree]
  | b :: rest, i + 1, h => by
      cases b with
      | false => simp [List.set, lowestFree]
      | true =>
          have hr : i < rest.length := by
            simp at h
            omega
          have := lowestFree_after_remove rest i hr
          simp [List.set, lowestFree]
          omega

/-- C8 counterexample: the very first PID a fresh worker allocates is 0 —
PIDs are not non-zero (the process unit tests likewise run processes with
`ProcessId(0)`). -/
theorem first_pid_is_zero_cx :
    (slabAlloc []).1 = 0 ∧ (slabAlloc [false, true]).1 = 0 := by
  constructor
  · rfl
  · rfl

/-- C8 (amended): PID allocation is dense (every index below the allocated
one is held by a live process), the allocated PID is not held by any live
process (uniqueness within the worker), and a PID is handed out again only
once its slot has been freed by dropping the process — freeing slot `i`
makes the allocator return an index no larger than `i`. PIDs start at 0,
so they are not non-zero. -/
theorem pid_allocation (s : List Bool) (i : Nat) :
    (∀ j, j < (slabAlloc s).1 → s[j]? = some true)
    ∧ (s[(slabAlloc s).1]? = none ∨ s[(slabAlloc s).1]? = some false)
    ∧ (i < s.length → lowestFree (slabRemove s i) ≤ i) :=
  ⟨fun j hj => lowestFree_below_occupied s j hj,
   lowestFree_is_free s,
   fun h => lowestFree_after_remove s i h⟩

/-- Witness for C8: on the slab `[true, false]` the allocator returns pid
1; slot 0 is occupied, slot 1 is free, and freeing slot 0 reopens it. -/
theorem pid_allocation_witness :
    ([true, false][0]? = some true)
    ∧ ([true, false][(slabAlloc [true, false]).1]? = none
        ∨ [true, false][(slabAlloc [true, false]).1]? = some false)
    ∧ lowestFree (slabRemove [true, false] 0) ≤ 0 :=
  ⟨(pid_allocation [true, false] 0).1 0 (by decide),
   (pid_allocation [true, false] 0).2.1,
   (pid_allocation [true, false] 0).2.2 (by decide)⟩

/-- C10: every initiator added to the actor system is installed as a
process with priority Low regardless of the options passed (quantified over
an arbitrary options type, since the source ignores its `_options`
argument): a successful `add_initiator` appends exactly one scheduler
entry, carrying `Priority::LOW`. -/
theorem initiator_installed_low {Opts : Type} (opts : Opts)
    (sched : List SchedEntry) (pid : Nat) (initOk : Bool)
    (sched2 : List SchedEntry)
    (h : addInitiator opts sched pid initOk = .ok sched2) :
    sched2 = sched ++ [{ pid := pid, priority := .LOW }] := by
  cases initOk with
  | true =>
      simp [addInitiator] at h
      exact h.symm
  | false => simp [addInitiator] at h

/-- Witness for C10: adding an initiator with a non-default option value
still installs it at priority Low. -/
theorem initiator_installed_low_witness :
    [({ pid := 0, priority := Priority.LOW } : SchedEntry)]
      = [] ++ [{ pid := 0, priority := Priority.LOW }] :=
  initiator_installed_low (true : Bool) [] 0 true
    [{ pid := 0, priority := Priority.LOW }] rfl

end Heph
